import Mathlib

/-!
Shallow embedding of the `RedisPoolManager` class (redis-pm).

Connections are identified by natural-number ids.  The mutable per-client
flags (`isHealthy`, `isReady`, `isOpen`) live in the pool state as maps from
ids to `Bool`, mirroring properties stored on the JavaScript client objects
that the pool's `Set`s hold by reference.  JavaScript `Set`s preserve
insertion order and `values().next().value` yields the oldest element, so the
sets are modelled as duplicate-free lists with `setAdd` appending and
`List.erase` deleting.

External effects are parametrised by oracles: `connectOk` tells whether a
`client.connect()` call succeeds, `quitOk` whether `client.quit()` resolves
or rejects, `probeOk` whether `client.ping()` succeeds.  Fresh connection ids
(generated in JS from the clock and `Math.random`) are supplied as arguments.
-/

namespace RedisPM

/-- Statistics record, mirroring `this.stats` of the pool. -/
structure Stats where
  created : Nat
  destroyed : Nat
  acquired : Nat
  released : Nat
  errors : Nat
  deriving DecidableEq, Repr

/-- The zero-initialised statistics set up by the constructor. -/
def Stats.init : Stats := ⟨0, 0, 0, 0, 0⟩

/-- Pool state: the `availableConnections` and `busyConnections` sets
(insertion-ordered, duplicate-free lists of connection ids), the per-client
flags, the sizing configuration, the shutdown flag and the statistics. -/
structure PoolState where
  available : List Nat
  busy : List Nat
  isHealthy : Nat → Bool
  isReady : Nat → Bool
  isOpen : Nat → Bool
  maxConnections : Nat
  minConnections : Nat
  isShuttingDown : Bool
  stats : Stats

/-- Pointwise update of a flag map. -/
def updFn (f : Nat → Bool) (i : Nat) (b : Bool) : Nat → Bool :=
  fun j => if j = i then b else f j

/-- `Set.add`: append unless already present (JS sets ignore re-insertion). -/
def setAdd (l : List Nat) (x : Nat) : List Nat :=
  if x ∈ l then l else l ++ [x]

/-- `getTotalConnections()`: size of `available` plus size of `busy`. -/
def totalConnections (s : PoolState) : Nat :=
  s.available.length + s.busy.length

/-- Effect of a successful `createConnection()`: the new client is connected
(`isOpen`/`isReady` true), marked `isHealthy = true`, added to the
`availableConnections` set, and `stats.created` is incremented. -/
def createConnection (s : PoolState) (newId : Nat) : PoolState :=
  { s with
    available := setAdd s.available newId
    isHealthy := updFn s.isHealthy newId true
    isReady := updFn s.isReady newId true
    isOpen := updFn s.isOpen newId true
    stats := { s.stats with created := s.stats.created + 1 } }

/-- `destroyConnection(client)`: remove the client from both sets, then, if
the handle is still open, attempt `client.quit()`.  The `destroyed` counter
is incremented after the quit; a quit rejection is caught (swallowed), which
also skips the increment.  A successful quit closes the handle. -/
def destroyConnection (s : PoolState) (c : Nat) (quitOk : Bool) : PoolState :=
  let s1 := { s with available := s.available.erase c, busy := s.busy.erase c }
  if s1.isOpen c then
    if quitOk then
      { s1 with
        isOpen := updFn s1.isOpen c false
        stats := { s1.stats with destroyed := s1.stats.destroyed + 1 } }
    else
      s1
  else
    { s1 with stats := { s1.stats with destroyed := s1.stats.destroyed + 1 } }

/-- Result of `acquireConnection()`. -/
inductive AcquireResult where
  | ok (c : Nat)
  | poolShuttingDown
  | createFailed
  | timedOut
  deriving DecidableEq, Repr

/-- The `this.stats.acquired++` step performed after the shutdown check. -/
def incAcquired (s : PoolState) : PoolState :=
  { s with stats := { s.stats with acquired := s.stats.acquired + 1 } }

/-- Tier-2 intermediate state: `await this.createConnection()` has completed
(the new record sits in `availableConnections`) but the awaiting
continuation inside `acquireConnection` has not yet run.  This state is
observable: the `await` resumption is a separate event-loop step. -/
def tier2Mid (s : PoolState) (newId : Nat) : PoolState :=
  createConnection s newId

/-- Tier-2 continuation: `availableConnections.delete(client);
busyConnections.add(client)` before returning the client. -/
def tier2Finish (s : PoolState) (newId : Nat) : PoolState :=
  { s with available := s.available.erase newId, busy := setAdd s.busy newId }

/-- The observable pool states of a tier-2 (grow) acquire between the
completion of `createConnection` and the return to the caller. -/
def acquireTier2Trace (s : PoolState) (newId : Nat) : List PoolState :=
  [tier2Mid (incAcquired s) newId, tier2Finish (tier2Mid (incAcquired s) newId) newId]

/-- `acquireConnection()`: shutdown check, `acquired++`, then the three-tier
strategy.  Tier 3 (wait) is modelled, for a run in which no concurrent
release occurs, by its timeout rejection. -/
def acquireConnection (s : PoolState) (newId : Nat) (connectOk : Bool) :
    AcquireResult × PoolState :=
  if s.isShuttingDown then
    (.poolShuttingDown, s)
  else
    let s1 := incAcquired s
    match s1.available with
    | c :: rest =>
      (.ok c, { s1 with available := rest, busy := setAdd s1.busy c })
    | [] =>
      if totalConnections s1 < s1.maxConnections then
        if connectOk then
          (.ok newId, tier2Finish (tier2Mid s1 newId) newId)
        else
          (.createFailed, s1)
      else
        (.timedOut, s1)

/-- `releaseConnection(client)`.  `none` models a falsy client or a client
without a `connectionId` (the early-return guard).  Otherwise `released` is
incremented, and if the client is tracked as busy it is removed from `busy`
and either returned to `available` (when `isHealthy && isReady`) or handed
to `destroyConnection`. -/
def releaseConnection (s : PoolState) (client : Option Nat) (quitOk : Bool) :
    PoolState :=
  match client with
  | none => s
  | some c =>
    let s1 := { s with stats := { s.stats with released := s.stats.released + 1 } }
    if c ∈ s1.busy then
      let s2 := { s1 with busy := s1.busy.erase c }
      if s2.isHealthy c && s2.isReady c then
        { s2 with available := setAdd s2.available c }
      else
        destroyConnection s2 c quitOk
    else
      s1

/-- `handleConnectionError(client)`: mark unhealthy, drop from `busy` (if
present) and from `available`, then create one replacement when the total
has fallen below `minConnections`.  `replacementId` is the fresh id the
replacement `createConnection` would use; `createOk = false` models a
replacement-creation failure, which is caught and not retried. -/
def handleConnectionError (s : PoolState) (c : Nat) (replacementId : Nat)
    (createOk : Bool) : PoolState :=
  let s1 := { s with
    isHealthy := updFn s.isHealthy c false
    busy := s.busy.erase c
    available := s.available.erase c }
  if totalConnections s1 < s1.minConnections then
    if createOk then createConnection s1 replacementId else s1
  else
    s1

/-- The per-client error listener installed by `createConnection`:
`stats.errors++` followed by `handleConnectionError(client, error)`. -/
def connectionErrorSignal (s : PoolState) (c : Nat) (replacementId : Nat)
    (createOk : Bool) : PoolState :=
  handleConnectionError
    { s with stats := { s.stats with errors := s.stats.errors + 1 } }
    c replacementId createOk

/-- Probe phase of `healthCheck()`: every client in `availableConnections`
is pinged; a ping rejection sets that client's `isHealthy` to `false`. -/
def probePhase (s : PoolState) (probeOk : Nat → Bool) : PoolState :=
  { s with
    isHealthy := fun i =>
      if i ∈ s.available ∧ probeOk i = false then false else s.isHealthy i }

/-- A loop calling `destroyConnection` on each client of a snapshot list. -/
def destroyAll (s : PoolState) (l : List Nat) (quitOk : Nat → Bool) : PoolState :=
  l.foldl (fun st c => destroyConnection st c (quitOk c)) s

/-- `healthCheck()`: probe all available clients, then destroy every client
of the (snapshot of the) available set that is now unhealthy. -/
def healthCheck (s : PoolState) (probeOk : Nat → Bool) (quitOk : Nat → Bool) :
    PoolState :=
  let s1 := probePhase s probeOk
  destroyAll s1 (s1.available.filter (fun c => !(s1.isHealthy c))) quitOk

/-- `shutdown()`: set `isShuttingDown`, snapshot `available ++ busy`, and
destroy every collected client (each destroy settling independently). -/
def shutdown (s : PoolState) (quitOk : Nat → Bool) : PoolState :=
  let s1 := { s with isShuttingDown := true }
  destroyAll s1 (s1.available ++ s1.busy) quitOk

/-- A pool-facing operation: one `acquireConnection()` call (with its
creation oracle and fresh id) or one `releaseConnection()` call. -/
inductive PoolOp where
  | acquire (newId : Nat) (connectOk : Bool)
  | release (client : Option Nat) (quitOk : Bool)
  deriving DecidableEq, Repr

/-- Apply one operation to the pool state. -/
def applyOp (s : PoolState) : PoolOp → PoolState
  | .acquire newId connectOk => (acquireConnection s newId connectOk).2
  | .release client quitOk => releaseConnection s client quitOk

/-- Run a sequence of acquire/release operations. -/
def execOps (s : PoolState) (ops : List PoolOp) : PoolState :=
  ops.foldl applyOp s

/-- The pool options object passed to the constructor; `none` models an
omitted property (JS `undefined`). -/
structure PoolOptions where
  maxConnections : Option Nat
  minConnections : Option Nat
  connectionTimeout : Option Nat
  retryDelay : Option Nat
  maxRetries : Option Nat
  deriving DecidableEq, Repr

/-- JavaScript `options.x || d` on a numeric option: `undefined` and `0` are
falsy, so both yield the default `d`. -/
def jsOrDefault (v : Option Nat) (d : Nat) : Nat :=
  match v with
  | none => d
  | some n => if n = 0 then d else n

/-- The sizing/timeout/retry configuration the constructor stores. -/
structure PoolConfig where
  maxConnections : Nat
  minConnections : Nat
  connectionTimeout : Nat
  retryDelay : Nat
  maxRetries : Nat
  deriving DecidableEq, Repr

/-- The constructor's option handling: each field is `options.x || default`
with defaults `10, 2, 30000, 1000, 5`. -/
def mkPoolConfig (o : PoolOptions) : PoolConfig where
  maxConnections := jsOrDefault o.maxConnections 10
  minConnections := jsOrDefault o.minConnections 2
  connectionTimeout := jsOrDefault o.connectionTimeout 30000
  retryDelay := jsOrDefault o.retryDelay 1000
  maxRetries := jsOrDefault o.maxRetries 5

/-! Concrete pool states used to instantiate the theorems. -/

/-- Constant-false flag map. -/
def flagsFalse : Nat → Bool := fun _ => false

/-- Constant-true flag map. -/
def flagsTrue : Nat → Bool := fun _ => true

/-- A freshly constructed pool with default sizing and no connections. -/
def emptyPool : PoolState where
  available := []
  busy := []
  isHealthy := flagsFalse
  isReady := flagsFalse
  isOpen := flagsFalse
  maxConnections := 10
  minConnections := 2
  isShuttingDown := false
  stats := Stats.init

/-- One open, healthy, ready connection sitting in `available`. -/
def poolA : PoolState :=
  { emptyPool with
    available := [1], isHealthy := flagsTrue, isReady := flagsTrue,
    isOpen := flagsTrue }

/-- One busy connection that is healthy but not ready. -/
def poolB : PoolState :=
  { emptyPool with
    busy := [1], isHealthy := flagsTrue, isReady := flagsFalse,
    isOpen := flagsTrue }

/-- One available and one busy connection, all flags up. -/
def poolC : PoolState :=
  { emptyPool with
    available := [1], busy := [2], isHealthy := flagsTrue,
    isReady := flagsTrue, isOpen := flagsTrue }

/-- A full pool: one available connection with `maxConnections = 1`. -/
def poolD : PoolState :=
  { poolA with maxConnections := 1, minConnections := 1 }

/-- One open, healthy, ready busy connection (default sizing, so a removal
drops the total below `minConnections = 2`). -/
def poolE : PoolState :=
  { emptyPool with
    busy := [1], isHealthy := flagsTrue, isReady := flagsTrue,
    isOpen := flagsTrue }

/-! Basic lemmas about the set operations. -/

lemma mem_setAdd {l : List Nat} {x y : Nat} : x ∈ setAdd l y ↔ x ∈ l ∨ x = y := by
  unfold setAdd
  by_cases h : y ∈ l
  · rw [if_pos h]
    exact ⟨Or.inl, fun hh => hh.elim id fun he => he ▸ h⟩
  · rw [if_neg h]
    simp [List.mem_append]

lemma self_mem_setAdd (l : List Nat) (y : Nat) : y ∈ setAdd l y :=
  mem_setAdd.mpr (Or.inr rfl)

lemma setAdd_length_le (l : List Nat) (x : Nat) :
    (setAdd l x).length ≤ l.length + 1 := by
  unfold setAdd
  split <;> simp

lemma erase_length_le (l : List Nat) (x : Nat) :
    (l.erase x).length ≤ l.length := by
  rw [List.length_erase]
  split <;> omega

lemma foldl_erase_count (l base : List Nat) (x : Nat) :
    (List.foldl (fun acc c => acc.erase c) base l).count x =
      base.count x - l.count x := by
  induction l generalizing base with
  | nil => simp
  | cons c t ih =>
    rw [List.foldl_cons, ih, List.count_erase, List.count_cons]
    by_cases hcx : c = x
    · simp only [hcx]
      simp
      omega
    · simp [hcx]

lemma foldl_erase_of_not_mem (l base : List Nat) (h : ∀ c ∈ l, c ∉ base) :
    List.foldl (fun acc c => acc.erase c) base l = base := by
  induction l with
  | nil => rfl
  | cons c t ih =>
    rw [List.foldl_cons, List.erase_of_not_mem (h c (by simp))]
    exact ih fun x hx => h x (by simp [hx])

lemma eq_nil_of_count_eq_zero {l : List Nat} (h : ∀ x, l.count x = 0) :
    l = [] :=
  List.eq_nil_iff_forall_not_mem.mpr fun a => List.count_eq_zero.mp (h a)

/-! Component lemmas about `destroyConnection`. -/

lemma destroy_available (s : PoolState) (c : Nat) (q : Bool) :
    (destroyConnection s c q).available = s.available.erase c := by
  simp only [destroyConnection]
  split
  · split <;> rfl
  · rfl

lemma destroy_busy (s : PoolState) (c : Nat) (q : Bool) :
    (destroyConnection s c q).busy = s.busy.erase c := by
  simp only [destroyConnection]
  split
  · split <;> rfl
  · rfl

lemma destroy_isShuttingDown (s : PoolState) (c : Nat) (q : Bool) :
    (destroyConnection s c q).isShuttingDown = s.isShuttingDown := by
  simp only [destroyConnection]
  split
  · split <;> rfl
  · rfl

lemma destroy_maxConnections (s : PoolState) (c : Nat) (q : Bool) :
    (destroyConnection s c q).maxConnections = s.maxConnections := by
  simp only [destroyConnection]
  split
  · split <;> rfl
  · rfl

lemma destroy_isHealthy (s : PoolState) (c : Nat) (q : Bool) :
    (destroyConnection s c q).isHealthy = s.isHealthy := by
  simp only [destroyConnection]
  split
  · split <;> rfl
  · rfl

lemma destroy_isOpen_ne (s : PoolState) (c j : Nat) (q : Bool) (h : j ≠ c) :
    (destroyConnection s c q).isOpen j = s.isOpen j := by
  simp only [destroyConnection]
  split
  · split
    · simp [updFn, h]
    · rfl
  · rfl

lemma destroy_destroyed (s : PoolState) (c : Nat) (q : Bool) :
    (destroyConnection s c q).stats.destroyed =
      if s.isOpen c = true ∧ q = false then s.stats.destroyed
      else s.stats.destroyed + 1 := by
  unfold destroyConnection
  cases hq : q <;> cases ho : s.isOpen c <;> simp_all

/-! Lemmas about `destroyAll`, the destroy loop shared by `healthCheck` and
`shutdown`. -/

lemma destroyAll_available (l : List Nat) (s : PoolState) (q : Nat → Bool) :
    (destroyAll s l q).available =
      List.foldl (fun acc c => acc.erase c) s.available l := by
  induction l generalizing s with
  | nil => rfl
  | cons c t ih =>
    rw [show destroyAll s (c :: t) q
          = destroyAll (destroyConnection s c (q c)) t q from rfl,
        ih, destroy_available]
    rfl

lemma destroyAll_busy (l : List Nat) (s : PoolState) (q : Nat → Bool) :
    (destroyAll s l q).busy =
      List.foldl (fun acc c => acc.erase c) s.busy l := by
  induction l generalizing s with
  | nil => rfl
  | cons c t ih =>
    rw [show destroyAll s (c :: t) q
          = destroyAll (destroyConnection s c (q c)) t q from rfl,
        ih, destroy_busy]
    rfl

lemma destroyAll_isShuttingDown (l : List Nat) (s : PoolState) (q : Nat → Bool) :
    (destroyAll s l q).isShuttingDown = s.isShuttingDown := by
  induction l generalizing s with
  | nil => rfl
  | cons c t ih =>
    rw [show destroyAll s (c :: t) q
          = destroyAll (destroyConnection s c (q c)) t q from rfl,
        ih, destroy_isShuttingDown]

lemma destroyAll_isHealthy (l : List Nat) (s : PoolState) (q : Nat → Bool) :
    (destroyAll s l q).isHealthy = s.isHealthy := by
  induction l generalizing s with
  | nil => rfl
  | cons c t ih =>
    rw [show destroyAll s (c :: t) q
          = destroyAll (destroyConnection s c (q c)) t q from rfl,
        ih, destroy_isHealthy]

lemma destroyAll_destroyed (l : List Nat) (s : PoolState) (q : Nat → Bool)
    (hn : l.Nodup) :
    (destroyAll s l q).stats.destroyed =
      s.stats.destroyed + l.countP (fun c => !(s.isOpen c) || q c) := by
  induction l generalizing s with
  | nil => simp [destroyAll]
  | cons c t ih =>
    rw [List.nodup_cons] at hn
    rw [show destroyAll s (c :: t) q
          = destroyAll (destroyConnection s c (q c)) t q from rfl,
        ih _ hn.2, destroy_destroyed, List.countP_cons]
    have hcong : t.countP (fun x => !((destroyConnection s c (q c)).isOpen x) || q x)
        = t.countP (fun x => !(s.isOpen x) || q x) := by
      apply List.countP_congr
      intro x hx
      rw [destroy_isOpen_ne s c x (q c) (by rintro rfl; exact hn.1 hx)]
    rw [hcong]
    by_cases ho : s.isOpen c = true <;> cases hq : q c <;> simp [ho, hq] <;> omega

/-! Projection lemmas for the small state maps used inside `acquireConnection`
and `releaseConnection`. -/

lemma incAcquired_available (s : PoolState) :
    (incAcquired s).available = s.available := rfl

lemma incAcquired_total (s : PoolState) :
    totalConnections (incAcquired s) = totalConnections s := rfl

lemma incAcquired_max (s : PoolState) :
    (incAcquired s).maxConnections = s.maxConnections := rfl

lemma destroy_total (s : PoolState) (c : Nat) (q : Bool) :
    totalConnections (destroyConnection s c q)
      = (s.available.erase c).length + (s.busy.erase c).length := by
  rw [totalConnections, destroy_available, destroy_busy]

lemma tier2_total_le (s : PoolState) (nid : Nat) :
    totalConnections (tier2Finish (tier2Mid s nid) nid)
      ≤ totalConnections s + 1 := by
  simp only [totalConnections, tier2Finish, tier2Mid, createConnection]
  have h1 : ((setAdd s.available nid).erase nid).length
      = (setAdd s.available nid).length - 1 :=
    List.length_erase_of_mem (self_mem_setAdd _ _)
  have h2 := setAdd_length_le s.available nid
  have h3 := setAdd_length_le s.busy nid
  have h4 : 1 ≤ (setAdd s.available nid).length :=
    List.length_pos_of_mem (self_mem_setAdd _ _)
  omega

/-! Single-step lemmas for the acquire/release state machine. -/

lemma applyOp_maxConnections (s : PoolState) (op : PoolOp) :
    (applyOp s op).maxConnections = s.maxConnections := by
  cases op with
  | acquire nid ok =>
    by_cases hsd : s.isShuttingDown = true
    · simp [applyOp, acquireConnection, hsd]
    · cases hav : s.available with
      | nil =>
        simp only [applyOp, acquireConnection, if_neg hsd,
          incAcquired_available, hav]
        split
        · split <;> rfl
        · rfl
      | cons c rest =>
        simp only [applyOp, acquireConnection, if_neg hsd,
          incAcquired_available, hav]
        rfl
  | release client q =>
    cases client with
    | none => rfl
    | some c =>
      simp only [applyOp, releaseConnection]
      split
      · split
        · rfl
        · rw [destroy_maxConnections]
      · rfl

lemma applyOp_total_le (s : PoolState) (op : PoolOp)
    (h : totalConnections s ≤ s.maxConnections) :
    totalConnections (applyOp s op) ≤ s.maxConnections := by
  have htot : totalConnections s = s.available.length + s.busy.length := rfl
  cases op with
  | acquire nid ok =>
    by_cases hsd : s.isShuttingDown = true
    · simpa [applyOp, acquireConnection, hsd] using h
    · cases hav : s.available with
      | cons c rest =>
        have hstep : totalConnections (applyOp s (PoolOp.acquire nid ok))
            = rest.length + (setAdd s.busy c).length := by
          simp only [applyOp, acquireConnection, if_neg hsd,
            incAcquired_available, hav]
          rfl
        have h5 := setAdd_length_le s.busy c
        have h6 : s.available.length = rest.length + 1 := by
          rw [hav]
          rfl
        omega
      | nil =>
        by_cases hcap : totalConnections s < s.maxConnections
        · have hcap2 : totalConnections (incAcquired s)
              < (incAcquired s).maxConnections := by
            rw [incAcquired_total, incAcquired_max]
            exact hcap
          cases ok with
          | true =>
            have hstep : applyOp s (PoolOp.acquire nid true)
                = tier2Finish (tier2Mid (incAcquired s) nid) nid := by
              simp only [applyOp, acquireConnection, if_neg hsd,
                incAcquired_available, hav, if_pos hcap2]
              simp
            rw [hstep]
            have h5 := tier2_total_le (incAcquired s) nid
            rw [incAcquired_total] at h5
            omega
          | false =>
            have hstep : applyOp s (PoolOp.acquire nid false)
                = incAcquired s := by
              simp only [applyOp, acquireConnection, if_neg hsd,
                incAcquired_available, hav, if_pos hcap2]
              simp
            rw [hstep, incAcquired_total]
            exact h
        · have hcap2 : ¬ totalConnections (incAcquired s)
              < (incAcquired s).maxConnections := by
            rw [incAcquired_total, incAcquired_max]
            exact hcap
          have hstep : applyOp s (PoolOp.acquire nid ok)
              = incAcquired s := by
            simp only [applyOp, acquireConnection, if_neg hsd,
              incAcquired_available, hav, if_neg hcap2]
          rw [hstep, incAcquired_total]
          exact h
  | release client q =>
    cases client with
    | none => exact h
    | some c =>
      by_cases hcb : c ∈ s.busy
      · have h6 : (s.busy.erase c).length = s.busy.length - 1 :=
          List.length_erase_of_mem hcb
        have h7 := List.length_pos_of_mem hcb
        cases hhr : s.isHealthy c && s.isReady c with
        | true =>
          have hstep : totalConnections (applyOp s (PoolOp.release (some c) q))
              = (setAdd s.available c).length + (s.busy.erase c).length := by
            simp only [applyOp, releaseConnection, if_pos hcb, hhr, if_true]
            rfl
          have h5 := setAdd_length_le s.available c
          omega
        | false =>
          have hstep : totalConnections (applyOp s (PoolOp.release (some c) q))
              = (s.available.erase c).length
                + ((s.busy.erase c).erase c).length := by
            simp only [applyOp, releaseConnection, if_pos hcb, hhr,
              Bool.false_eq_true, if_false, destroy_total]
          have h5 := erase_length_le s.available c
          have h8 := erase_length_le (s.busy.erase c) c
          omega
      · have hstep : totalConnections (applyOp s (PoolOp.release (some c) q))
            = totalConnections s := by
          simp only [applyOp, releaseConnection, if_neg hcb]
          rfl
        rw [hstep]
        exact h

/-! Claim theorems. -/

/-- Claim C1, counterexample: starting from an empty pool, a tier-2 (grow)
acquire of connection `7` succeeds, yet it is not the case that the record
is absent from `available` at every observable step between its creation and
its return — `createConnection` puts it into `available`, and only the
acquirer's continuation (a later event-loop step) removes it. -/
theorem c1_counterexample :
    (acquireConnection emptyPool 7 true).1 = AcquireResult.ok 7 ∧
    ¬(∀ st ∈ acquireTier2Trace emptyPool 7, 7 ∉ st.available) := by
  refine ⟨rfl, ?_⟩
  decide

/-- Claim C1 (amended): during a tier-2 (grow) acquire the new record is
returned to the caller marked busy (in the final state it is in `busy` and
not in `available`), but there is an observable intermediate step — after
`createConnection` completes and before the acquirer's continuation runs —
at which the record is present in `available`, where another waiter could
take it. -/
theorem c1_amended_tier2_window (s : PoolState) (nid : Nat)
    (hsd : s.isShuttingDown = false) (hav : s.available = [])
    (hcap : totalConnections s < s.maxConnections) :
    acquireConnection s nid true
      = (AcquireResult.ok nid, tier2Finish (tier2Mid (incAcquired s) nid) nid) ∧
    nid ∈ (tier2Mid (incAcquired s) nid).available ∧
    nid ∈ (tier2Finish (tier2Mid (incAcquired s) nid) nid).busy ∧
    nid ∉ (tier2Finish (tier2Mid (incAcquired s) nid) nid).available := by
  have h1 : (incAcquired s).available = s.available := rfl
  have h2 : totalConnections (incAcquired s) = totalConnections s := rfl
  have h3 : (incAcquired s).maxConnections = s.maxConnections := rfl
  refine ⟨?_, self_mem_setAdd _ _, self_mem_setAdd _ _, ?_⟩
  · simp only [acquireConnection, hsd, Bool.false_eq_true, if_false, h1, hav,
      h2, h3, if_pos hcap]
    simp
  · rw [show (tier2Finish (tier2Mid (incAcquired s) nid) nid).available
          = (setAdd (incAcquired s).available nid).erase nid from rfl, h1, hav]
    simp [setAdd]

/-- Witness for C1 (amended) at the empty pool and fresh id `7`. -/
theorem c1_amended_witness :
    emptyPool.isShuttingDown = false ∧ emptyPool.available = [] ∧
    totalConnections emptyPool < emptyPool.maxConnections ∧
    (acquireConnection emptyPool 7 true
        = (AcquireResult.ok 7, tier2Finish (tier2Mid (incAcquired emptyPool) 7) 7) ∧
      7 ∈ (tier2Mid (incAcquired emptyPool) 7).available ∧
      7 ∈ (tier2Finish (tier2Mid (incAcquired emptyPool) 7) 7).busy ∧
      7 ∉ (tier2Finish (tier2Mid (incAcquired emptyPool) 7) 7).available) :=
  ⟨rfl, rfl, by decide, c1_amended_tier2_window emptyPool 7 rfl rfl (by decide)⟩

/-- Claim C3, counterexample: `poolB` holds a busy record `1` whose
`isHealthy` flag is true but whose `isReady` flag is false; releasing it
does not return it to `available` (it is destroyed), contradicting the claim
that a busy record with a true healthy flag is returned to `available`. -/
theorem c3_counterexample :
    1 ∈ poolB.busy ∧ poolB.isHealthy 1 = true ∧
    1 ∉ (releaseConnection poolB (some 1) true).available := by
  decide

/-- Claim C3 (amended): for a record tracked as busy, release removes it
from `busy`; it is returned to `available` exactly when `isHealthy` AND
`isReady` both hold, and otherwise (unhealthy or not ready) it is handed to
destruction; in particular an unhealthy record is never placed back into
`available` by release. -/
theorem c3_amended_release_busy (s : PoolState) (c : Nat) (q : Bool)
    (hb : c ∈ s.busy) (hna : s.available.Nodup) (hnb : s.busy.Nodup) :
    c ∉ (releaseConnection s (some c) q).busy ∧
    (s.isHealthy c = true ∧ s.isReady c = true →
      c ∈ (releaseConnection s (some c) q).available) ∧
    (¬(s.isHealthy c = true ∧ s.isReady c = true) →
      c ∉ (releaseConnection s (some c) q).available) ∧
    (s.isHealthy c = false →
      c ∉ (releaseConnection s (some c) q).available) := by
  simp only [releaseConnection, if_pos hb]
  cases hhr : s.isHealthy c && s.isReady c with
  | true =>
    have hhr2 : s.isHealthy c = true ∧ s.isReady c = true := by
      simpa using hhr
    rw [if_pos rfl]
    exact ⟨hnb.not_mem_erase, fun _ => self_mem_setAdd _ _,
      fun hcon => absurd ⟨hhr2.1, hhr2.2⟩ hcon,
      fun hfalse => Bool.noConfusion (hhr2.1.symm.trans hfalse)⟩
  | false =>
    simp only [Bool.false_eq_true, if_false]
    have hstepb : c ∉ (s.busy.erase c).erase c := by
      rw [List.erase_of_not_mem hnb.not_mem_erase]
      exact hnb.not_mem_erase
    refine ⟨?_, fun hcon => ?_, fun _ => ?_, fun _ => ?_⟩
    · rw [destroy_busy]
      exact hstepb
    · rw [hcon.1, hcon.2] at hhr
      simp at hhr
    · rw [destroy_available]
      exact hna.not_mem_erase
    · rw [destroy_available]
      exact hna.not_mem_erase

/-- Witness for C3 (amended) at `poolB` (busy record `1`, healthy, not
ready). -/
theorem c3_amended_witness :
    1 ∈ poolB.busy ∧ poolB.available.Nodup ∧ poolB.busy.Nodup ∧
    (1 ∉ (releaseConnection poolB (some 1) false).busy ∧
      (poolB.isHealthy 1 = true ∧ poolB.isReady 1 = true →
        1 ∈ (releaseConnection poolB (some 1) false).available) ∧
      (¬(poolB.isHealthy 1 = true ∧ poolB.isReady 1 = true) →
        1 ∉ (releaseConnection poolB (some 1) false).available) ∧
      (poolB.isHealthy 1 = false →
        1 ∉ (releaseConnection poolB (some 1) false).available)) :=
  ⟨by decide, by decide, by decide,
    c3_amended_release_busy poolB 1 false (by decide) (by decide) (by decide)⟩

/-- Claim C4, counterexample: `poolA`'s record `1` has an open handle.  A
destroy whose graceful close fails leaves the `destroyed` counter
unchanged (not incremented exactly once regardless of close outcome), and
two successive destroys with successful closes increment the counter twice
(destroy is not idempotent in the counter). -/
theorem c4_counterexample :
    poolA.isOpen 1 = true ∧
    (destroyConnection poolA 1 false).stats.destroyed = poolA.stats.destroyed ∧
    (destroyConnection (destroyConnection poolA 1 true) 1 true).stats.destroyed
      = poolA.stats.destroyed + 2 := by
  refine ⟨rfl, rfl, rfl⟩

/-- Claim C4 (amended): destroy removes the record from both sets and never
re-raises a close failure; it increments `destroyed` by one exactly when the
graceful close succeeds or the handle was already closed, a failing close
skips the increment, and a repeated destroy increments the counter again. -/
theorem c4_amended_destroy (s : PoolState) (c : Nat) (q : Bool)
    (hna : s.available.Nodup) (hnb : s.busy.Nodup) :
    (destroyConnection s c q).stats.destroyed
      = (if s.isOpen c = true ∧ q = false then s.stats.destroyed
         else s.stats.destroyed + 1) ∧
    c ∉ (destroyConnection s c q).available ∧
    c ∉ (destroyConnection s c q).busy ∧
    (destroyConnection (destroyConnection s c true) c true).stats.destroyed
      = s.stats.destroyed + 2 := by
  refine ⟨destroy_destroyed s c q, ?_, ?_, ?_⟩
  · rw [destroy_available]
    exact hna.not_mem_erase
  · rw [destroy_busy]
    exact hnb.not_mem_erase
  · rw [destroy_destroyed, destroy_destroyed]
    simp

/-- Witness for C4 (amended) at `poolA`, record `1`, failing close. -/
theorem c4_amended_witness :
    poolA.available.Nodup ∧ poolA.busy.Nodup ∧
    ((destroyConnection poolA 1 false).stats.destroyed
        = (if poolA.isOpen 1 = true ∧ false = false then poolA.stats.destroyed
           else poolA.stats.destroyed + 1) ∧
      1 ∉ (destroyConnection poolA 1 false).available ∧
      1 ∉ (destroyConnection poolA 1 false).busy ∧
      (destroyConnection (destroyConnection poolA 1 true) 1 true).stats.destroyed
        = poolA.stats.destroyed + 2) :=
  ⟨by decide, by decide, c4_amended_destroy poolA 1 false (by decide) (by decide)⟩

/-- Claim C5, counterexample: record `1` is not tracked as busy in the
empty pool, yet `releaseConnection` increments the `released` counter —
the call is not a counter-preserving no-op. -/
theorem c5_counterexample :
    1 ∉ emptyPool.busy ∧
    (releaseConnection emptyPool (some 1) true).stats.released
      = emptyPool.stats.released + 1 := by
  refine ⟨?_, rfl⟩
  decide

/-- Claim C5 (amended): releasing a record that is not tracked as busy
leaves the `available`/`busy` sets, the flags and every other counter
unchanged but still increments `released` by one; only a falsy client (or
one without a `connectionId`) is a complete no-op. -/
theorem c5_amended_release_not_busy (s : PoolState) (c : Nat) (q : Bool)
    (h : c ∉ s.busy) :
    releaseConnection s (some c) q
      = { s with stats := { s.stats with released := s.stats.released + 1 } } ∧
    releaseConnection s none q = s := by
  refine ⟨?_, rfl⟩
  simp only [releaseConnection, if_neg h]

/-- Witness for C5 (amended) at the empty pool and untracked record `1`. -/
theorem c5_amended_witness :
    1 ∉ emptyPool.busy ∧
    (releaseConnection emptyPool (some 1) false
        = { emptyPool with
            stats := { emptyPool.stats with
                        released := emptyPool.stats.released + 1 } } ∧
      releaseConnection emptyPool none false = emptyPool) :=
  ⟨by decide, c5_amended_release_not_busy emptyPool 1 false (by decide)⟩

/-- Claim C9: every `acquireConnection()` call that passes the shutdown
check increments the `acquired` counter by one — including calls that then
fail with a creation error or a timeout — so a failed acquire never leaves
the statistics unchanged. -/
theorem c9_acquired_counts_attempts (s : PoolState) (nid : Nat) (ok : Bool)
    (h : s.isShuttingDown = false) :
    ((acquireConnection s nid ok).2).stats.acquired = s.stats.acquired + 1 ∧
    ((acquireConnection s nid ok).2).stats ≠ s.stats := by
  have h1 : (incAcquired s).available = s.available := rfl
  have key : ((acquireConnection s nid ok).2).stats.acquired
      = s.stats.acquired + 1 := by
    cases hav : s.available with
    | nil =>
      simp only [acquireConnection, h, Bool.false_eq_true, if_false, h1, hav]
      split
      · split <;> rfl
      · rfl
    | cons c rest =>
      simp only [acquireConnection, h, Bool.false_eq_true, if_false, h1, hav]
      rfl
  refine ⟨key, fun heq => ?_⟩
  rw [heq] at key
  omega

/-- Witness for C9: a failing acquire (no available connection, creation
fails) on the empty pool still increments `acquired`. -/
theorem c9_witness :
    emptyPool.isShuttingDown = false ∧
    (((acquireConnection emptyPool 3 false).2).stats.acquired
        = emptyPool.stats.acquired + 1 ∧
      ((acquireConnection emptyPool 3 false).2).stats ≠ emptyPool.stats) :=
  ⟨rfl, c9_acquired_counts_attempts emptyPool 3 false rfl⟩

/-- Claim C10: a pool option explicitly supplied as `0` behaves exactly as
if it had been omitted (the `||` default kicks in): the constructor yields
the defaults `10, 2, 30000, 1000, 5`, and no configuration can produce
`minConnections = 0`. -/
theorem c10_falsy_zero_options :
    (∀ o : PoolOptions,
      mkPoolConfig { o with maxConnections := some 0 }
          = mkPoolConfig { o with maxConnections := none } ∧
      mkPoolConfig { o with minConnections := some 0 }
          = mkPoolConfig { o with minConnections := none } ∧
      mkPoolConfig { o with connectionTimeout := some 0 }
          = mkPoolConfig { o with connectionTimeout := none } ∧
      mkPoolConfig { o with retryDelay := some 0 }
          = mkPoolConfig { o with retryDelay := none } ∧
      mkPoolConfig { o with maxRetries := some 0 }
          = mkPoolConfig { o with maxRetries := none }) ∧
    mkPoolConfig ⟨none, none, none, none, none⟩ = ⟨10, 2, 30000, 1000, 5⟩ ∧
    mkPoolConfig ⟨some 0, some 0, some 0, some 0, some 0⟩
      = ⟨10, 2, 30000, 1000, 5⟩ ∧
    ∀ o : PoolOptions, 0 < (mkPoolConfig o).minConnections := by
  refine ⟨fun o => ⟨rfl, rfl, rfl, rfl, rfl⟩, rfl, rfl, fun o => ?_⟩
  show 0 < jsOrDefault o.minConnections 2
  cases hm : o.minConnections with
  | none => simp [jsOrDefault]
  | some n =>
    by_cases hn : n = 0
    · simp [jsOrDefault, hn]
    · simp [jsOrDefault, hn]
      omega

/-- Claim C2: for every sequence of acquire/release operations starting
from a state satisfying `available + busy ≤ maxConnections`, the invariant
holds after every completed operation, and an acquire on a pool whose total
has reached `maxConnections` creates no new connection. -/
theorem c2_pool_size_invariant (s : PoolState) (ops : List PoolOp)
    (h : totalConnections s ≤ s.maxConnections) :
    totalConnections (execOps s ops) ≤ s.maxConnections ∧
    ∀ nid ok, s.maxConnections ≤ totalConnections s →
      ((acquireConnection s nid ok).2).stats.created = s.stats.created := by
  refine ⟨?_, fun nid ok hfull => ?_⟩
  · induction ops generalizing s with
    | nil => exact h
    | cons op t ih =>
      have h1 := applyOp_total_le s op h
      have h2 := applyOp_maxConnections s op
      have h4 : totalConnections (applyOp s op) ≤ (applyOp s op).maxConnections := by
        rw [h2]
        exact h1
      have h5 := ih (applyOp s op) h4
      rw [h2] at h5
      exact h5
  · by_cases hsd : s.isShuttingDown = true
    · simp [acquireConnection, hsd]
    · cases hav : s.available with
      | cons c rest =>
        simp only [acquireConnection, if_neg hsd, incAcquired_available, hav]
        rfl
      | nil =>
        have hncap : ¬ totalConnections (incAcquired s)
            < (incAcquired s).maxConnections := by
          rw [incAcquired_total, incAcquired_max]
          omega
        simp only [acquireConnection, if_neg hsd, incAcquired_available, hav,
          if_neg hncap]
        rfl

/-- Witness for C2 at the full one-slot pool `poolD` and a three-operation
sequence (reuse-acquire, release, failed acquire). -/
theorem c2_witness :
    totalConnections poolD ≤ poolD.maxConnections ∧
    (totalConnections (execOps poolD
        [PoolOp.acquire 9 true, PoolOp.release (some 1) true,
         PoolOp.acquire 8 false]) ≤ poolD.maxConnections ∧
      ∀ nid ok, poolD.maxConnections ≤ totalConnections poolD →
        ((acquireConnection poolD nid ok).2).stats.created
          = poolD.stats.created) :=
  ⟨by decide,
    c2_pool_size_invariant poolD
      [PoolOp.acquire 9 true, PoolOp.release (some 1) true,
       PoolOp.acquire 8 false] (by decide)⟩

/-- Claim C6: after `shutdown()` resolves, `available` and `busy` are both
empty (total is 0), and every subsequent `acquireConnection()` call fails
with the pool-closed error. -/
theorem c6_shutdown_drains (s : PoolState) (quitOk : Nat → Bool) :
    (shutdown s quitOk).available = [] ∧
    (shutdown s quitOk).busy = [] ∧
    totalConnections (shutdown s quitOk) = 0 ∧
    ∀ nid ok, (acquireConnection (shutdown s quitOk) nid ok).1
      = AcquireResult.poolShuttingDown := by
  have hsd : (shutdown s quitOk).isShuttingDown = true := by
    simp only [shutdown]
    rw [destroyAll_isShuttingDown]
  have hav : (shutdown s quitOk).available = [] := by
    simp only [shutdown]
    rw [destroyAll_available]
    apply eq_nil_of_count_eq_zero
    intro x
    rw [foldl_erase_count, List.count_append]
    dsimp only
    omega
  have hbu : (shutdown s quitOk).busy = [] := by
    simp only [shutdown]
    rw [destroyAll_busy]
    apply eq_nil_of_count_eq_zero
    intro x
    rw [foldl_erase_count, List.count_append]
    dsimp only
    omega
  refine ⟨hav, hbu, ?_, fun nid ok => ?_⟩
  · rw [totalConnections, hav, hbu]
    rfl
  · simp [acquireConnection, hsd]

/-- Claim C7, counterexample: `poolA` has one open available connection
whose probe fails and whose graceful close then also fails; after
`healthCheck()` the record is gone from `available`, but the `destroyed`
counter has NOT incremented (the rejected `quit()` skips the increment), so
the claimed per-eviction increment does not hold. -/
theorem c7_counterexample :
    poolA.available = [1] ∧ poolA.isOpen 1 = true ∧
    1 ∉ (healthCheck poolA flagsFalse flagsFalse).available ∧
    (healthCheck poolA flagsFalse flagsFalse).stats.destroyed
      = poolA.stats.destroyed := by
  refine ⟨rfl, rfl, ?_, by decide⟩
  decide

/-- Claim C7 (amended): `healthCheck()` probes only available records —
the `busy` set and the health flags of busy records are untouched — and
every available record whose probe failed is absent from `available`
afterwards; the `destroyed` counter increments by one for each evicted
record whose graceful close succeeded or whose handle was already closed
(a failing close skips the increment). -/
theorem c7_health_check (s : PoolState) (probeOk quitOk : Nat → Bool)
    (hna : s.available.Nodup) (hdisj : ∀ x ∈ s.busy, x ∉ s.available) :
    (healthCheck s probeOk quitOk).busy = s.busy ∧
    (∀ b ∈ s.busy,
      (healthCheck s probeOk quitOk).isHealthy b = s.isHealthy b) ∧
    (∀ c ∈ s.available, probeOk c = false →
      c ∉ (healthCheck s probeOk quitOk).available) ∧
    (healthCheck s probeOk quitOk).stats.destroyed
      = s.stats.destroyed
        + (s.available.filter
            (fun c => !(probeOk c) || !(s.isHealthy c))).countP
            (fun c => !(s.isOpen c) || quitOk c) := by
  have hs1a : (probePhase s probeOk).available = s.available := rfl
  have hL : (probePhase s probeOk).available.filter
      (fun c => !((probePhase s probeOk).isHealthy c))
      = s.available.filter (fun c => !(probeOk c) || !(s.isHealthy c)) := by
    rw [hs1a]
    apply List.filter_congr
    intro x hx
    by_cases hp : probeOk x = true
    · simp [probePhase, hx, hp]
    · simp [probePhase, hx, hp]
  have hLnodup : ((probePhase s probeOk).available.filter
      (fun c => !((probePhase s probeOk).isHealthy c))).Nodup := by
    rw [hL]
    exact hna.filter _
  refine ⟨?_, fun b hb => ?_, fun c hc hp => ?_, ?_⟩
  · simp only [healthCheck]
    rw [destroyAll_busy]
    apply foldl_erase_of_not_mem
    intro x hx hxb
    rw [hL] at hx
    exact hdisj x hxb (List.mem_filter.mp hx).1
  · simp only [healthCheck]
    rw [destroyAll_isHealthy]
    have hnb2 : b ∉ s.available := hdisj b hb
    simp [probePhase, hnb2]
  · simp only [healthCheck]
    rw [destroyAll_available]
    intro hmem
    have hcnt := List.count_pos_iff.mpr hmem
    rw [foldl_erase_count, hL, hs1a] at hcnt
    have hce : (s.available.filter
        (fun x => !(probeOk x) || !(s.isHealthy x))).count c
        = s.available.count c :=
      List.count_filter (by simp [hp])
    rw [hce] at hcnt
    omega
  · simp only [healthCheck]
    rw [destroyAll_destroyed _ _ _ hLnodup, hL]
    rfl

/-- Witness for C7 (amended) at `poolC` (one available, one busy record)
with all probes failing and all closes succeeding. -/
theorem c7_witness :
    poolC.available.Nodup ∧ (∀ x ∈ poolC.busy, x ∉ poolC.available) ∧
    ((healthCheck poolC flagsFalse flagsTrue).busy = poolC.busy ∧
      (∀ b ∈ poolC.busy,
        (healthCheck poolC flagsFalse flagsTrue).isHealthy b
          = poolC.isHealthy b) ∧
      (∀ c ∈ poolC.available, flagsFalse c = false →
        c ∉ (healthCheck poolC flagsFalse flagsTrue).available) ∧
      (healthCheck poolC flagsFalse flagsTrue).stats.destroyed
        = poolC.stats.destroyed
          + (poolC.available.filter
              (fun c => !(flagsFalse c) || !(poolC.isHealthy c))).countP
              (fun c => !(poolC.isOpen c) || flagsTrue c)) :=
  ⟨by decide, by decide,
    c7_health_check poolC flagsFalse flagsTrue (by decide) (by decide)⟩

/-- Claim C8: on an asynchronous error signal for connection `c`, the pool
marks `c` unhealthy, removes it from `busy` and `available`, increments the
`errors` counter by one, and a later release of `c` cannot re-admit it to
`available`; if the total has fallen below `minConnections`, exactly one
replacement creation is attempted (successful creation adds one new record
and bumps `created` once; a failed creation changes nothing further and is
not retried), and no replacement is attempted otherwise. -/
theorem c8_error_recovery (s : PoolState) (c rid : Nat) (createOk : Bool)
    (hrc : rid ≠ c) (hna : s.available.Nodup) (hnb : s.busy.Nodup) :
    (connectionErrorSignal s c rid createOk).isHealthy c = false ∧
    c ∉ (connectionErrorSignal s c rid createOk).busy ∧
    c ∉ (connectionErrorSignal s c rid createOk).available ∧
    (connectionErrorSignal s c rid createOk).stats.errors
      = s.stats.errors + 1 ∧
    (∀ q, c ∉ (releaseConnection (connectionErrorSignal s c rid createOk)
                (some c) q).available) ∧
    ((s.available.erase c).length + (s.busy.erase c).length
        < s.minConnections →
      (createOk = true →
        rid ∈ (connectionErrorSignal s c rid createOk).available ∧
        (connectionErrorSignal s c rid createOk).stats.created
          = s.stats.created + 1) ∧
      (createOk = false →
        (connectionErrorSignal s c rid createOk).stats.created
          = s.stats.created ∧
        (connectionErrorSignal s c rid createOk).available
          = s.available.erase c)) ∧
    (s.minConnections
        ≤ (s.available.erase c).length + (s.busy.erase c).length →
      (connectionErrorSignal s c rid createOk).stats.created
        = s.stats.created ∧
      (connectionErrorSignal s c rid createOk).available
        = s.available.erase c) := by
  have hcid : (c = rid) = False := eq_false (Ne.symm hrc)
  have hbusyEq : (connectionErrorSignal s c rid createOk).busy
      = s.busy.erase c := by
    simp only [connectionErrorSignal, handleConnectionError]
    split
    · split <;> rfl
    · rfl
  have hHealthEq : (connectionErrorSignal s c rid createOk).isHealthy c
      = false := by
    simp only [connectionErrorSignal, handleConnectionError]
    split
    · split
      · simp [createConnection, updFn, hcid]
      · simp [updFn]
    · simp [updFn]
  have hcAvail : c ∉ (connectionErrorSignal s c rid createOk).available := by
    simp only [connectionErrorSignal, handleConnectionError]
    split
    · split
      · intro hmem
        rcases mem_setAdd.mp hmem with h1 | h1
        · exact hna.not_mem_erase h1
        · exact Ne.symm hrc h1
      · exact hna.not_mem_erase
    · exact hna.not_mem_erase
  have herrEq : (connectionErrorSignal s c rid createOk).stats.errors
      = s.stats.errors + 1 := by
    simp only [connectionErrorSignal, handleConnectionError]
    split
    · split <;> rfl
    · rfl
  have hcBusy : c ∉ (connectionErrorSignal s c rid createOk).busy := by
    rw [hbusyEq]
    exact hnb.not_mem_erase
  refine ⟨hHealthEq, hcBusy, hcAvail, herrEq, fun q => ?_,
    fun hB => ⟨fun hcr => ?_, fun hcr => ?_⟩, fun hge => ?_⟩
  · simp only [releaseConnection]
    rw [if_neg hcBusy]
    exact hcAvail
  · subst hcr
    constructor
    · simp only [connectionErrorSignal, handleConnectionError]
      split
      · simp only [if_true]
        exact self_mem_setAdd _ _
      · next h1 => exact absurd hB h1
    · simp only [connectionErrorSignal, handleConnectionError]
      split
      · simp only [if_true]
        rfl
      · next h1 => exact absurd hB h1
  · subst hcr
    constructor
    · simp only [connectionErrorSignal, handleConnectionError]
      split
      · simp only [Bool.false_eq_true, if_false]
      · next h1 => exact absurd hB h1
    · simp only [connectionErrorSignal, handleConnectionError]
      split
      · simp only [Bool.false_eq_true, if_false]
      · next h1 => exact absurd hB h1
  · constructor
    · simp only [connectionErrorSignal, handleConnectionError]
      split
      · next h1 => exact absurd h1 (not_lt.mpr hge)
      · rfl
    · simp only [connectionErrorSignal, handleConnectionError]
      split
      · next h1 => exact absurd h1 (not_lt.mpr hge)
      · rfl

/-- Witness for C8 at `poolE` (one busy connection `1`, `minConnections =
2`), error signal on `1` with a failing replacement creation. -/
theorem c8_witness :
    (2 : Nat) ≠ 1 ∧ poolE.available.Nodup ∧ poolE.busy.Nodup ∧
    ((connectionErrorSignal poolE 1 2 false).isHealthy 1 = false ∧
      1 ∉ (connectionErrorSignal poolE 1 2 false).busy ∧
      1 ∉ (connectionErrorSignal poolE 1 2 false).available ∧
      (connectionErrorSignal poolE 1 2 false).stats.errors
        = poolE.stats.errors + 1 ∧
      (∀ q, 1 ∉ (releaseConnection (connectionErrorSignal poolE 1 2 false)
                  (some 1) q).available) ∧
      ((poolE.available.erase 1).length + (poolE.busy.erase 1).length
          < poolE.minConnections →
        (false = true →
          2 ∈ (connectionErrorSignal poolE 1 2 false).available ∧
          (connectionErrorSignal poolE 1 2 false).stats.created
            = poolE.stats.created + 1) ∧
        (false = false →
          (connectionErrorSignal poolE 1 2 false).stats.created
            = poolE.stats.created ∧
          (connectionErrorSignal poolE 1 2 false).available
            = poolE.available.erase 1)) ∧
      (poolE.minConnections
          ≤ (poolE.available.erase 1).length + (poolE.busy.erase 1).length →
        (connectionErrorSignal poolE 1 2 false).stats.created
          = poolE.stats.created ∧
        (connectionErrorSignal poolE 1 2 false).available
          = poolE.available.erase 1)) :=
  ⟨by decide, by decide, by decide,
    c8_error_recovery poolE 1 2 false (by decide) (by decide) (by decide)⟩

end RedisPM
